import Mathlib

/-!
Shallow embedding of `src/automatic_parking_permit.py` (AutoRPM2PARK).

The program is a single-run pipeline: open a Firefox session on the
rpm2park visitor portal, fill a three-page wizard, read and parse the
permit expiration, optionally save a screenshot, optionally send it to a
Discord channel (creating and deleting a temporary screenshot when the
save flag is off), close the session, and optionally register a Windows
Task Scheduler one-shot task that re-invokes the program at expiration.

The embedding models the external world by an `Env` (element readiness,
the portal's displayed expiration text, the Discord session outcome, the
wall clock) and each Python function as a computation that threads the
artifact file's on-disk existence (a `Bool`, the path is unique per run)
and emits a trace of observable events; Python exceptions are `Except`.
-/

namespace ARPM

/-- Calendar timestamp at second resolution, standing for Python's naive
local `datetime` values used by the program. -/
structure DateTime where
  year : Nat
  month : Nat
  day : Nat
  hour : Nat
  minute : Nat
  second : Nat
  deriving Repr, DecidableEq

/-- Python `datetime` comparison: lexicographic on the components.
`DateTime.ltb a b` is the embedding of `a < b`. -/
def DateTime.ltb (a b : DateTime) : Bool :=
  if a.year ≠ b.year then decide (a.year < b.year)
  else if a.month ≠ b.month then decide (a.month < b.month)
  else if a.day ≠ b.day then decide (a.day < b.day)
  else if a.hour ≠ b.hour then decide (a.hour < b.hour)
  else if a.minute ≠ b.minute then decide (a.minute < b.minute)
  else decide (a.second < b.second)

/-- Truncation of a timestamp to whole minutes (seconds dropped). -/
def DateTime.truncMin (t : DateTime) : DateTime :=
  { t with second := 0 }

/-- Gregorian leap-year rule, as used by Python's `datetime` validation. -/
def isLeapYear (y : Nat) : Bool :=
  y % 4 == 0 && (y % 100 != 0 || y % 400 == 0)

/-- Number of days in a month, as used by Python's `datetime` validation. -/
def daysInMonth (y m : Nat) : Nat :=
  if m == 2 then (if isLeapYear y then 29 else 28)
  else if m == 4 || m == 6 || m == 9 || m == 11 then 30
  else 31

/-- Numeric value of a decimal digit character. -/
def digitVal (c : Char) : Nat := c.toNat - 48

/-- Embedding of one-or-two-digit numeric fields of CPython `strptime`
(patterns such as `1[0-2]|0[1-9]|[1-9]` for `%m`/`%I`): a two-digit read
whose value lies in `[min2, max2]`, else a one-digit read whose value
lies in `[min1, max1]`.  Greedy matching agrees with the regex for the
format at hand because every field is followed by a non-digit literal. -/
def parse2or1 (min2 max2 min1 max1 : Nat) : List Char → Option (Nat × List Char)
  | a :: b :: rest =>
    if a.isDigit then
      if b.isDigit then
        let v2 := digitVal a * 10 + digitVal b
        if min2 ≤ v2 ∧ v2 ≤ max2 then some (v2, rest)
        else
          let v1 := digitVal a
          if min1 ≤ v1 ∧ v1 ≤ max1 then some (v1, b :: rest) else none
      else
        let v1 := digitVal a
        if min1 ≤ v1 ∧ v1 ≤ max1 then some (v1, b :: rest) else none
    else none
  | [a] =>
    if a.isDigit then
      let v1 := digitVal a
      if min1 ≤ v1 ∧ v1 ≤ max1 then some (v1, []) else none
    else none
  | [] => none

/-- Exactly four decimal digits (CPython `strptime` `%Y`). -/
def parse4digits : List Char → Option (Nat × List Char)
  | a :: b :: c :: d :: rest =>
    if a.isDigit && b.isDigit && c.isDigit && d.isDigit then
      some ((((digitVal a * 10 + digitVal b) * 10 + digitVal c) * 10 + digitVal d), rest)
    else none
  | _ => none

/-- One literal character of the format string. -/
def parseLit (c : Char) : List Char → Option (List Char)
  | x :: rest => if x == c then some rest else none
  | _ => none

/-- Literal whitespace in a CPython `strptime` format matches one or more
whitespace characters. -/
def parseWs : List Char → Option (List Char)
  | c :: rest => if c.isWhitespace then some (rest.dropWhile Char.isWhitespace) else none
  | [] => none

/-- CPython `strptime` `%p` in the C locale: `AM` or `PM`,
case-insensitively.  Returns `true` for PM. -/
def parseAmPm : List Char → Option (Bool × List Char)
  | a :: b :: rest =>
    if a.toLower == 'a' && b.toLower == 'm' then some (false, rest)
    else if a.toLower == 'p' && b.toLower == 'm' then some (true, rest)
    else none
  | _ => none

/-- Embedding of `datetime.strptime(s, '%m/%d/%Y %I:%M:%S %p')` from
`get_parking_permit_expiration_date`: the whole string must match the
fixed month/day/year 12-hour-clock pattern, the 12-hour value and the
AM/PM designator combine into a 24-hour value, and the resulting calendar
date must be constructible (`datetime` raises on an invalid day or on
leap seconds).  `none` stands for the `ValueError` Python raises. -/
def strptime_expiration (s : String) : Option DateTime := do
  let (mo, r1) ← parse2or1 1 12 1 9 s.toList
  let r2 ← parseLit '/' r1
  let (d, r3) ← parse2or1 1 31 1 9 r2
  let r4 ← parseLit '/' r3
  let (y, r5) ← parse4digits r4
  let r6 ← parseWs r5
  let (h12, r7) ← parse2or1 1 12 1 9 r6
  let r8 ← parseLit ':' r7
  let (mi, r9) ← parse2or1 0 59 0 9 r8
  let r10 ← parseLit ':' r9
  let (sec, r11) ← parse2or1 0 61 0 9 r10
  let r12 ← parseWs r11
  let (pm, r13) ← parseAmPm r12
  if r13 = [] then
    let h := if pm then (if h12 == 12 then 12 else h12 + 12)
             else (if h12 == 12 then 0 else h12)
    if 1 ≤ y ∧ d ≤ daysInMonth y mo ∧ sec ≤ 59 then
      some ⟨y, mo, d, h, mi, sec⟩
    else none
  else none

/-- Zero-padding to two digits (`strftime` numeric fields). -/
def pad2 (n : Nat) : String :=
  if n < 10 then "0" ++ toString n else toString n

/-- Zero-padding to four digits (`strftime` `%Y`). -/
def pad4 (n : Nat) : String :=
  if n < 10 then "000" ++ toString n
  else if n < 100 then "00" ++ toString n
  else if n < 1000 then "0" ++ toString n
  else toString n

/-- Embedding of `strftime('%m/%d/%Y')` used for the scheduled task's
start date. -/
def fmtDate (t : DateTime) : String :=
  pad2 t.month ++ "/" ++ pad2 t.day ++ "/" ++ pad4 t.year

/-- Embedding of `strftime('%H:%M')` used for the scheduled task's start
time: minute resolution, the seconds of the timestamp do not appear. -/
def fmtHM (t : DateTime) : String :=
  pad2 t.hour ++ ":" ++ pad2 t.minute

/-- Embedding of `strftime('%Y-%m-%d_%H-%M-%S')` used in the screenshot
file name. -/
def fmtStamp (t : DateTime) : String :=
  pad4 t.year ++ "-" ++ pad2 t.month ++ "-" ++ pad2 t.day ++ "_" ++
    pad2 t.hour ++ "-" ++ pad2 t.minute ++ "-" ++ pad2 t.second

/-- Configuration options consumed by the pipeline (the `config` dict
loaded from the YAML file). -/
structure Config where
  timeout : Nat
  property_location : String
  apartment_number_str : String
  plate_number : String
  vehicle_make : String
  vehicle_model : String
  vehicle_color : String
  screenshot_folder : String
  save_screenshot_of_permit : Bool
  send_screenshot_in_discord : Bool
  discord_bot_token : String
  discord_channel_id : Nat
  automatically_renew_permit : Bool
  deriving Repr, DecidableEq

/-- Command-line arguments (`argparse.Namespace`). -/
structure Args where
  config : String
  verbose : Bool
  deriving Repr, DecidableEq

/-- Windows Task Scheduler entry as assembled by the `schtasks /create`
invocation in `schedule_program_to_renew_permit`. -/
structure TaskDescriptor where
  taskName : String
  command : String
  schedule : String
  startDate : String
  startTime : String
  runLevel : String
  force : Bool
  deriving Repr, DecidableEq

/-- Observable events of one run. -/
inductive Event where
  | openSession : Event
  | navigate : String → Event
  | selectOption : String → String → Event
  | typeText : String → String → Event
  | click : String → Event
  | waitVisible : String → Event
  | capture : String → Event
  | closeWindow : Event
  | quitSession : Event
  | discordStart : Event
  | discordSend : String → Event
  | discordLogoff : Event
  | removeFile : String → Event
  | logErrorMsg : String → Event
  | registerTask : TaskDescriptor → Event
  deriving Repr, DecidableEq

/-- Phase of the Discord dispatch at which a failure arises. -/
inductive NotifPhase where
  | session : NotifPhase
  | send : NotifPhase
  | teardown : NotifPhase
  deriving Repr, DecidableEq

/-- Python exceptions that can escape the modelled functions. -/
inductive Err where
  | elementNotReady : String → Err
  | expirationParse : String → Err
  | notification : NotifPhase → Err
  | systemExit : Nat → Err
  deriving Repr, DecidableEq

/-- Outcome of the Discord dispatch, supplied by the environment. -/
inductive NotifOutcome where
  | ok : NotifOutcome
  | failSession : NotifOutcome
  | failSend : NotifOutcome
  | failTeardown : NotifOutcome
  deriving Repr, DecidableEq

/-- External world of one run: which portal elements become visible
within the timeout, the portal's displayed expiration text, the outcome
of the Discord session, the wall clock at file-name generation and at
the scheduling check. -/
structure Env where
  ready : String → Bool
  expirationText : String
  notifOutcome : NotifOutcome
  captureTime : DateTime
  now : DateTime

/-- Computation of the pipeline: takes the artifact file's current
on-disk existence, returns the emitted event trace, the new existence
state, and either a result or the Python exception that escaped. -/
def Run (α : Type) : Type := Bool → List Event × Bool × Except Err α

/-- Computation that does nothing and returns `a`. -/
def Run.pure (a : α) : Run α := fun fs => ([], fs, Except.ok a)

/-- Computation that emits one event. -/
def Run.emit (e : Event) : Run Unit := fun fs => ([e], fs, Except.ok ())

/-- Sequencing with Python exception semantics: if the first computation
raises, the second never runs and the trace so far is kept. -/
def Run.seq (x : Run α) (f : α → Run β) : Run β := fun fs =>
  match x fs with
  | (tr, fs1, Except.ok a) =>
    match f a fs1 with
    | (tr2, fs2, r) => (tr ++ tr2, fs2, r)
  | (tr, fs1, Except.error e) => (tr, fs1, Except.error e)

/-- Embedding of `wait_for_element`: blocks until the element is
visible; if the timeout elapses first (`env.ready` is false for the id)
a `TimeoutException` escapes, modelled as `Err.elementNotReady`. -/
def wait_for_element (env : Env) (element_id : String) : Run Unit := fun fs =>
  if env.ready element_id then ([Event.waitVisible element_id], fs, Except.ok ())
  else ([], fs, Except.error (Err.elementNotReady element_id))

/-- Wait for an element, then `select_by_visible_text` on it. -/
def selectVisibleText (env : Env) (element_id text : String) : Run Unit :=
  Run.seq (wait_for_element env element_id) fun _ =>
    Run.emit (Event.selectOption element_id text)

/-- Wait for an element, then `send_keys` on it. -/
def typeInto (env : Env) (element_id text : String) : Run Unit :=
  Run.seq (wait_for_element env element_id) fun _ =>
    Run.emit (Event.typeText element_id text)

/-- Wait for an element, then `click` it. -/
def clickOn (env : Env) (element_id : String) : Run Unit :=
  Run.seq (wait_for_element env element_id) fun _ =>
    Run.emit (Event.click element_id)

/-- Embedding of `create_parking_permit`: the fixed three-page wizard
sequence, each step guarded by `wait_for_element`. -/
def create_parking_permit (env : Env) (config : Config) : Run Unit :=
  Run.seq (selectVisibleText env "MainContent_ddl_Property" config.property_location) fun _ =>
  Run.seq (typeInto env "MainContent_txt_Apartment" config.apartment_number_str) fun _ =>
  Run.seq (clickOn env "MainContent_btn_PropertyNext") fun _ =>
  Run.seq (typeInto env "MainContent_txt_Plate" config.plate_number) fun _ =>
  Run.seq (typeInto env "MainContent_txt_Make" config.vehicle_make) fun _ =>
  Run.seq (typeInto env "MainContent_txt_Model" config.vehicle_model) fun _ =>
  Run.seq (typeInto env "MainContent_txt_Color" config.vehicle_color) fun _ =>
  Run.seq (clickOn env "MainContent_btn_Vehicle_Next") fun _ =>
  Run.seq (clickOn env "MainContent_btn_Auth_Next") fun _ =>
  Run.seq (typeInto env "MainContent_txt_Review_PlateNumber" config.plate_number) fun _ =>
  Run.seq (clickOn env "MainContent_cb_Confirm") fun _ =>
  clickOn env "MainContent_btn_Submit"

/-- Embedding of `get_parking_permit_expiration_date`: wait for the
results label, then `strptime` its text; an unparsable text raises,
modelled as `Err.expirationParse`. -/
def get_parking_permit_expiration_date (env : Env) : Run DateTime :=
  Run.seq (wait_for_element env "MainContent_lbl_Results_Expires") fun _ => fun fs =>
    match strptime_expiration env.expirationText with
    | some t => ([], fs, Except.ok t)
    | none => ([], fs, Except.error (Err.expirationParse env.expirationText))

/-- Embedding of `generate_screenshot_file_path`: folder, fixed stem,
wall-clock stamp at second resolution, `.png`. -/
def generate_screenshot_file_path (folder_path : String) (now : DateTime) : String :=
  folder_path ++ "\\rpm2park_parking_permit_" ++ fmtStamp now ++ ".png"

/-- Embedding of `save_screenshot_of_permit`: wait until the permit's QR
code is visible, then take the full-page screenshot; the file then
exists on disk. -/
def save_screenshot_of_permit (env : Env) (screenshot_file_path : String) : Run Unit :=
  Run.seq (wait_for_element env "MainContent_img_QRC") fun _ => fun _fs =>
    ([Event.capture screenshot_file_path], true, Except.ok ())

/-- Embedding of `delete_screenshot_of_permit`: remove the file if it
exists, otherwise log an error; either way return normally. -/
def delete_screenshot_of_permit (screenshot_file_path : String) : Run Unit := fun fs =>
  if fs then ([Event.removeFile screenshot_file_path], false, Except.ok ())
  else
    ([Event.logErrorMsg ("Could not find and delete " ++ screenshot_file_path ++ ".")],
      fs, Except.ok ())

/-- Embedding of the `async with discord.Client(...)` block of
`send_screenshot_in_discord`: establish the session, on ready send the
file, log off and close.  The environment chooses at which phase, if
any, the dispatch fails; a failure escapes as `Err.notification`. -/
def discord_dispatch (env : Env) (screenshot_file_path : String) : Run Unit := fun fs =>
  match env.notifOutcome with
  | NotifOutcome.ok =>
    ([Event.discordStart, Event.discordSend screenshot_file_path, Event.discordLogoff],
      fs, Except.ok ())
  | NotifOutcome.failSession => ([], fs, Except.error (Err.notification NotifPhase.session))
  | NotifOutcome.failSend =>
    ([Event.discordStart], fs, Except.error (Err.notification NotifPhase.send))
  | NotifOutcome.failTeardown =>
    ([Event.discordStart, Event.discordSend screenshot_file_path],
      fs, Except.error (Err.notification NotifPhase.teardown))

/-- Embedding of `send_screenshot_in_discord`: if the permanent-save
flag is off, capture a temporary screenshot now; otherwise close the
browser window (the site no longer needs to be visible).  Then run the
Discord dispatch, and afterwards — only on its normal completion, there
is no `try/finally` — delete the temporary screenshot when the
permanent-save flag is off. -/
def send_screenshot_in_discord (env : Env) (screenshot_file_path : String)
    (config : Config) : Run Unit :=
  Run.seq
    (if !config.save_screenshot_of_permit then
      save_screenshot_of_permit env screenshot_file_path
    else
      Run.emit Event.closeWindow) fun _ =>
  Run.seq (discord_dispatch env screenshot_file_path) fun _ =>
  if !config.save_screenshot_of_permit then
    delete_screenshot_of_permit screenshot_file_path
  else
    Run.pure ()

/-- Embedding of Python `str.strip()`: remove leading and trailing
whitespace. -/
def stripStr (s : String) : String :=
  String.mk (((s.toList.dropWhile Char.isWhitespace).reverse.dropWhile
    Char.isWhitespace).reverse)

/-- Embedding of `program_path.replace("\\", "\\\\")`: every backslash
of the path is doubled (the pattern is a single character, so Python's
left-to-right replacement is character-wise). -/
def escapeBackslashes (s : String) : String :=
  String.mk (s.toList.foldr
    (fun c acc => if c == '\\' then '\\' :: '\\' :: acc else c :: acc) [])

/-- Embedding of `generate_command_line_arguments_as_str`: default
config path omitted, `--verbose` emitted when set, trailing blank
stripped. -/
def generate_command_line_arguments_as_str (args : Args) : String :=
  let s1 := if args.config ≠ "config.yaml" then "--config " ++ args.config ++ " " else ""
  let s2 := if args.verbose then s1 ++ "--verbose " else s1
  stripStr s2

/-- Embedding of `schedule_program_to_renew_permit`: when the expiration
lies strictly in the future, issue one `schtasks /create` registration
(fixed task name, `once` schedule, date `%m/%d/%Y`, time `%H:%M`,
`HIGHEST` run level, `/f` force); otherwise log an error and
`sys.exit(1)` without registering anything. -/
def schedule_program_to_renew_permit (env : Env) (program_path : String)
    (parking_permit_expiration_date : DateTime) (args : Args) : Run Unit := fun fs =>
  let d : TaskDescriptor :=
    { taskName := "AutomaticParkingPermitRenewal"
      command := "\"python " ++ escapeBackslashes program_path ++ " " ++
        generate_command_line_arguments_as_str args ++ "\""
      schedule := "once"
      startDate := fmtDate parking_permit_expiration_date
      startTime := fmtHM parking_permit_expiration_date
      runLevel := "HIGHEST"
      force := true }
  if DateTime.ltb env.now parking_permit_expiration_date then
    ([Event.registerTask d], fs, Except.ok ())
  else
    ([Event.logErrorMsg "An unknown error has occurred where the parking permit has already expired."],
      fs, Except.error (Err.systemExit 1))

/-- Body of the `with webdriver.Firefox()` block of `main`: navigate,
fill the wizard, read the expiration, generate the screenshot path, and
run the two optional screenshot steps. -/
def sessionBody (env : Env) (config : Config) : Run DateTime :=
  Run.seq (Run.emit (Event.navigate "https://rpm2park.com/visitors/")) fun _ =>
  Run.seq (create_parking_permit env config) fun _ =>
  Run.seq (get_parking_permit_expiration_date env) fun exp =>
  Run.seq
    (if config.save_screenshot_of_permit then
      save_screenshot_of_permit env
        (generate_screenshot_file_path config.screenshot_folder env.captureTime)
    else Run.pure ()) fun _ =>
  Run.seq
    (if config.send_screenshot_in_discord then
      send_screenshot_in_discord env
        (generate_screenshot_file_path config.screenshot_folder env.captureTime) config
    else Run.pure ()) fun _ =>
  Run.pure exp

/-- Embedding of `main` from the session open onward (argument parsing,
logging and config validation are external collaborators).  The `with`
statement opens the session and quits it on every exit path, normal or
exceptional; after a normal body, the renewal task is scheduled when the
flag is set. -/
def main (env : Env) (config : Config) (program_path : String) (args : Args) :
    List Event × Bool × Except Err Unit :=
  match sessionBody env config false with
  | (tr, fs1, Except.ok exp) =>
    let tr1 := Event.openSession :: tr ++ [Event.quitSession]
    if config.automatically_renew_permit then
      match schedule_program_to_renew_permit env program_path exp args fs1 with
      | (tr2, fs2, r2) => (tr1 ++ tr2, fs2, r2)
    else (tr1, fs1, Except.ok ())
  | (tr, fs1, Except.error e) =>
    (Event.openSession :: tr ++ [Event.quitSession], fs1, Except.error e)

/-- Event classifier: the session quit performed by the `with` statement. -/
def isQuit : Event → Bool
  | Event.quitSession => true
  | _ => false

/-- Event classifier: the `driver.close()` window close. -/
def isCloseWindow : Event → Bool
  | Event.closeWindow => true
  | _ => false

/-- Event classifier: a screenshot capture. -/
def isCapture : Event → Bool
  | Event.capture _ => true
  | _ => false

/-- Event classifier: a screenshot capture written to a path other than
the given one. -/
def isCaptureOffPath (path : String) : Event → Bool
  | Event.capture q => q != path
  | _ => false

/-- Event classifier: an `os.remove` of a file. -/
def isRemoveFile : Event → Bool
  | Event.removeFile _ => true
  | _ => false

/-- Event classifier: a `schtasks /create` registration. -/
def isRegisterTask : Event → Bool
  | Event.registerTask _ => true
  | _ => false

/-- Event classifier: a click on the wizard's final submit button. -/
def isSubmitClick : Event → Bool
  | Event.click element_id => element_id == "MainContent_btn_Submit"
  | _ => false

/-- Event classifier: an event that ends the visibility of the browser
session (window close or session quit). -/
def isSessionClose (e : Event) : Bool := isCloseWindow e || isQuit e

/-- Check whether the session is closed before the artifact is captured:
among capture and session-close events, the first one in the trace is a
session close. -/
def sessionClosedBeforeCapture (tr : List Event) : Bool :=
  match tr.find? (fun e => isCapture e || isSessionClose e) with
  | some e => isSessionClose e
  | none => false

/-- On-disk existence of the single artifact path implied by a trace:
captures create the file, removes delete it. -/
def applyFs (fs : Bool) : List Event → Bool
  | [] => fs
  | Event.capture _ :: r => applyFs true r
  | Event.removeFile _ :: r => applyFs false r
  | _ :: r => applyFs fs r

/-- Modelled from the spec: the external Windows Task Scheduler is not
part of the repository (only the `schtasks` command line is issued by
`schedule_program_to_renew_permit`); per the spec's external-scheduler
contract, `/create ... /f` has overwrite-if-exists semantics, so creating
a task replaces any existing task of the same name. -/
def schtasksCreate (tasks : List TaskDescriptor) (d : TaskDescriptor) :
    List TaskDescriptor :=
  tasks.filter (fun t => t.taskName != d.taskName) ++ [d]

/-- Tasks of a given name registered in the external scheduler. -/
def tasksNamed (tasks : List TaskDescriptor) (n : String) : List TaskDescriptor :=
  tasks.filter (fun t => t.taskName == n)

/-- Check that a one-shot task descriptor fires exactly at instant `t`:
its start date and start time render `t`, and `t` has no seconds part
(the `schtasks /st` field has minute resolution, so the trigger instant
always lies on a whole minute). -/
def trigger_fires_at (d : TaskDescriptor) (t : DateTime) : Bool :=
  d.startDate == fmtDate t && d.startTime == fmtHM t && t.second == 0

/-- Computation that never emits an event satisfying `p`. -/
def NeverEmits (p : Event → Bool) (m : Run α) : Prop :=
  ∀ fs, ((m fs).1.countP p) = 0

/-- Computation that emits at most `n` events satisfying `p`. -/
def EmitsLe (p : Event → Bool) (n : Nat) (m : Run α) : Prop :=
  ∀ fs, ((m fs).1.countP p) ≤ n

theorem Run.seq_trace (x : Run α) (f : α → Run β) (fs : Bool) :
    ((Run.seq x f) fs).1 = (x fs).1 ++ (match x fs with
      | (_, fs1, Except.ok a) => (f a fs1).1
      | (_, _, Except.error _) => []) := by
  unfold Run.seq
  rcases h : x fs with ⟨tr, fs1, r⟩
  cases r <;> simp

theorem never_seq {p : Event → Bool} {x : Run α} {f : α → Run β}
    (hx : NeverEmits p x) (hf : ∀ a, NeverEmits p (f a)) :
    NeverEmits p (Run.seq x f) := by
  intro fs
  rw [Run.seq_trace]
  rcases hx2 : x fs with ⟨tr, fs1, r⟩
  have h1 := hx fs
  rw [hx2] at h1
  simp only at h1
  cases r with
  | ok a =>
    have h2 := hf a fs1
    simp [List.countP_append, h1, h2]
  | error e => simp [List.countP_append, h1]

theorem never_runPure {p : Event → Bool} (a : α) : NeverEmits p (Run.pure a) := by
  intro fs; simp [Run.pure]

theorem never_runEmit {p : Event → Bool} {e : Event} (h : p e = false) :
    NeverEmits p (Run.emit e) := by
  intro fs; simp [Run.emit, List.countP_cons, h]

theorem never_wait {p : Event → Bool} {env : Env} {element_id : String}
    (h : p (Event.waitVisible element_id) = false) :
    NeverEmits p (wait_for_element env element_id) := by
  intro fs
  unfold wait_for_element
  split <;> simp [List.countP_cons, h]

theorem emitsLe_seq {p : Event → Bool} {x : Run α} {f : α → Run β} {n k : Nat}
    (hx : EmitsLe p n x) (hf : ∀ a, EmitsLe p k (f a)) :
    EmitsLe p (n + k) (Run.seq x f) := by
  intro fs
  rw [Run.seq_trace]
  rcases hx2 : x fs with ⟨tr, fs1, r⟩
  have h1 := hx fs
  rw [hx2] at h1
  simp only at h1
  cases r with
  | ok a =>
    have h2 := hf a fs1
    simp only [List.countP_append]
    omega
  | error e =>
    simp only [List.countP_append, List.countP_nil]
    omega

theorem never_toLe {p : Event → Bool} {m : Run α} {n : Nat}
    (h : NeverEmits p m) : EmitsLe p n m := by
  intro fs
  rw [h fs]
  exact Nat.zero_le n

theorem never_selectVT {p : Event → Bool} {env : Env} {element_id text : String}
    (hw : p (Event.waitVisible element_id) = false)
    (hs : p (Event.selectOption element_id text) = false) :
    NeverEmits p (selectVisibleText env element_id text) := by
  unfold selectVisibleText
  exact never_seq (never_wait hw) (fun _ => never_runEmit hs)

theorem never_typeI {p : Event → Bool} {env : Env} {element_id text : String}
    (hw : p (Event.waitVisible element_id) = false)
    (ht : p (Event.typeText element_id text) = false) :
    NeverEmits p (typeInto env element_id text) := by
  unfold typeInto
  exact never_seq (never_wait hw) (fun _ => never_runEmit ht)

theorem never_clickO {p : Event → Bool} {env : Env} {element_id : String}
    (hw : p (Event.waitVisible element_id) = false)
    (hc : p (Event.click element_id) = false) :
    NeverEmits p (clickOn env element_id) := by
  unfold clickOn
  exact never_seq (never_wait hw) (fun _ => never_runEmit hc)

theorem emitsLe_clickO {p : Event → Bool} {env : Env} {element_id : String}
    (hw : p (Event.waitVisible element_id) = false) :
    EmitsLe p 1 (clickOn env element_id) := by
  unfold clickOn
  have h1 : EmitsLe p 1 (Run.emit (Event.click element_id)) := by
    intro fs; simp [Run.emit, List.countP_cons]; split <;> simp
  exact emitsLe_seq (never_toLe (never_wait hw)) (fun _ => h1)

theorem never_create {p : Event → Bool} {env : Env} {config : Config}
    (hw : ∀ s, p (Event.waitVisible s) = false)
    (hc : ∀ s, p (Event.click s) = false)
    (ht : ∀ s t, p (Event.typeText s t) = false)
    (hs : ∀ s t, p (Event.selectOption s t) = false) :
    NeverEmits p (create_parking_permit env config) := by
  unfold create_parking_permit
  exact never_seq (never_selectVT (hw _) (hs _ _)) fun _ =>
    never_seq (never_typeI (hw _) (ht _ _)) fun _ =>
    never_seq (never_clickO (hw _) (hc _)) fun _ =>
    never_seq (never_typeI (hw _) (ht _ _)) fun _ =>
    never_seq (never_typeI (hw _) (ht _ _)) fun _ =>
    never_seq (never_typeI (hw _) (ht _ _)) fun _ =>
    never_seq (never_typeI (hw _) (ht _ _)) fun _ =>
    never_seq (never_clickO (hw _) (hc _)) fun _ =>
    never_seq (never_clickO (hw _) (hc _)) fun _ =>
    never_seq (never_typeI (hw _) (ht _ _)) fun _ =>
    never_seq (never_clickO (hw _) (hc _)) fun _ =>
    never_clickO (hw _) (hc _)

theorem never_getExp {p : Event → Bool} {env : Env}
    (hw : ∀ s, p (Event.waitVisible s) = false) :
    NeverEmits p (get_parking_permit_expiration_date env) := by
  unfold get_parking_permit_expiration_date
  refine never_seq (never_wait (hw _)) fun _ => ?_
  intro fs
  cases h : strptime_expiration env.expirationText <;> simp [h]

theorem never_saveShot {p : Event → Bool} {env : Env} {path : String}
    (hw : ∀ s, p (Event.waitVisible s) = false)
    (hcap : p (Event.capture path) = false) :
    NeverEmits p (save_screenshot_of_permit env path) := by
  unfold save_screenshot_of_permit
  refine never_seq (never_wait (hw _)) fun _ => ?_
  intro fs
  simp [List.countP_cons, hcap]

theorem emitsLe_saveShot {p : Event → Bool} {env : Env} {path : String}
    (hw : ∀ s, p (Event.waitVisible s) = false) :
    EmitsLe p 1 (save_screenshot_of_permit env path) := by
  unfold save_screenshot_of_permit
  refine emitsLe_seq (n := 0) (k := 1) (never_toLe (never_wait (hw _))) fun _ => ?_
  intro fs
  simp [List.countP_cons]
  split <;> simp

theorem never_deleteShot {p : Event → Bool} {path : String}
    (hrem : p (Event.removeFile path) = false)
    (hlog : ∀ s, p (Event.logErrorMsg s) = false) :
    NeverEmits p (delete_screenshot_of_permit path) := by
  intro fs
  unfold delete_screenshot_of_permit
  split <;> simp [List.countP_cons, hrem, hlog]

theorem never_discordD {p : Event → Bool} {env : Env} {path : String}
    (hst : p Event.discordStart = false)
    (hsd : p (Event.discordSend path) = false)
    (hlo : p Event.discordLogoff = false) :
    NeverEmits p (discord_dispatch env path) := by
  intro fs
  unfold discord_dispatch
  cases env.notifOutcome <;> simp [List.countP_cons, hst, hsd, hlo]

theorem never_sendShot {p : Event → Bool} {env : Env} {path : String} {config : Config}
    (hw : ∀ s, p (Event.waitVisible s) = false)
    (hcap : p (Event.capture path) = false)
    (hclw : p Event.closeWindow = false)
    (hst : p Event.discordStart = false)
    (hsd : p (Event.discordSend path) = false)
    (hlo : p Event.discordLogoff = false)
    (hrem : p (Event.removeFile path) = false)
    (hlog : ∀ s, p (Event.logErrorMsg s) = false) :
    NeverEmits p (send_screenshot_in_discord env path config) := by
  unfold send_screenshot_in_discord
  refine never_seq ?_ fun _ => never_seq (never_discordD hst hsd hlo) fun _ => ?_
  · cases hsv : config.save_screenshot_of_permit <;> simp only [hsv, Bool.not_true, Bool.not_false]
    · exact never_saveShot hw hcap
    · exact never_runEmit hclw
  · cases hsv : config.save_screenshot_of_permit <;> simp only [hsv, Bool.not_true, Bool.not_false]
    · exact never_deleteShot hrem hlog
    · exact never_runPure ()

theorem never_sched {p : Event → Bool} {env : Env} {pp : String}
    {exp : DateTime} {args : Args}
    (hreg : ∀ d, p (Event.registerTask d) = false)
    (hlog : ∀ s, p (Event.logErrorMsg s) = false) :
    NeverEmits p (schedule_program_to_renew_permit env pp exp args) := by
  intro fs
  unfold schedule_program_to_renew_permit
  split <;> simp [List.countP_cons, hreg, hlog]

theorem applyFs_append (fs : Bool) (a b : List Event) :
    applyFs fs (a ++ b) = applyFs (applyFs fs a) b := by
  induction a generalizing fs with
  | nil => rfl
  | cons e r ih => cases e <;> simp [applyFs, ih]

theorem applyFs_true_of_no_remove (tr : List Event)
    (h : ∀ e ∈ tr, isRemoveFile e = false) : applyFs true tr = true := by
  induction tr with
  | nil => rfl
  | cons e r ih =>
    have hr : ∀ x ∈ r, isRemoveFile x = false :=
      fun x hx => h x (List.mem_cons_of_mem _ hx)
    have he := h e (List.mem_cons_self e r)
    cases e <;> simp [applyFs, isRemoveFile] at he ⊢ <;> exact ih hr

theorem applyFs_eq_true_of_capture : ∀ (tr : List Event) (fs : Bool),
    (∀ e ∈ tr, isRemoveFile e = false) → (∃ e ∈ tr, isCapture e = true) →
    applyFs fs tr = true := by
  intro tr
  induction tr with
  | nil => intro fs _ h2; simp at h2
  | cons e r ih =>
    intro fs hrem hcap
    have hr : ∀ x ∈ r, isRemoveFile x = false :=
      fun x hx => hrem x (List.mem_cons_of_mem _ hx)
    cases e with
    | capture s => simpa [applyFs] using applyFs_true_of_no_remove r hr
    | removeFile s =>
      have := hrem _ (List.mem_cons_self _ _)
      simp [isRemoveFile] at this
    | _ =>
      have hcap2 : ∃ y ∈ r, isCapture y = true := by
        rcases hcap with ⟨x, hx, hcx⟩
        rcases List.mem_cons.mp hx with rfl | hxr
        · simp [isCapture] at hcx
        · exact ⟨x, hxr, hcx⟩
      simpa [applyFs] using ih fs hr hcap2

def FsFaithful (m : Run α) : Prop := ∀ fs, (m fs).2.1 = applyFs fs (m fs).1

theorem Run.seq_fs (x : Run α) (f : α → Run β) (fs : Bool) :
    ((Run.seq x f) fs).2.1 = (match x fs with
      | (_, fs1, Except.ok a) => (f a fs1).2.1
      | (_, fs1, Except.error _) => fs1) := by
  unfold Run.seq
  rcases h : x fs with ⟨tr, fs1, r⟩
  cases r with
  | ok a => rcases h2 : f a fs1 with ⟨tr2, fs2, r2⟩; simp
  | error e => simp

theorem fsFaithful_seq {x : Run α} {f : α → Run β}
    (hx : FsFaithful x) (hf : ∀ a, FsFaithful (f a)) : FsFaithful (Run.seq x f) := by
  intro fs
  rw [Run.seq_fs, Run.seq_trace]
  rcases hx2 : x fs with ⟨tr, fs1, r⟩
  have h1 : fs1 = applyFs fs tr := by
    have h0 := hx fs
    rw [hx2] at h0
    exact h0
  cases r with
  | ok a =>
    show (f a fs1).2.1 = applyFs fs (tr ++ (f a fs1).1)
    rw [applyFs_append, ← h1]
    exact hf a fs1
  | error e =>
    show fs1 = applyFs fs (tr ++ [])
    rw [List.append_nil]
    exact h1

theorem never_ite {p : Event → Bool} {c : Prop} [Decidable c] {m1 m2 : Run α}
    (h1 : NeverEmits p m1) (h2 : NeverEmits p m2) :
    NeverEmits p (if c then m1 else m2) := by
  split <;> assumption

theorem emitsLe_ite {p : Event → Bool} {n : Nat} {c : Prop} [Decidable c] {m1 m2 : Run α}
    (h1 : EmitsLe p n m1) (h2 : EmitsLe p n m2) :
    EmitsLe p n (if c then m1 else m2) := by
  split <;> assumption

theorem fsFaithful_ite {c : Prop} [Decidable c] {m1 m2 : Run α}
    (h1 : FsFaithful m1) (h2 : FsFaithful m2) :
    FsFaithful (if c then m1 else m2) := by
  split <;> assumption

theorem fsFaithful_runPure (a : α) : FsFaithful (Run.pure a) := fun _ => rfl

theorem fsFaithful_runEmit {e : Event}
    (h1 : isCapture e = false) (h2 : isRemoveFile e = false) :
    FsFaithful (Run.emit e) := by
  intro fs
  show fs = applyFs fs [e]
  cases e <;> simp [applyFs, isCapture, isRemoveFile] at h1 h2 ⊢

theorem fsFaithful_wait {env : Env} {element_id : String} :
    FsFaithful (wait_for_element env element_id) := by
  intro fs
  unfold wait_for_element
  split <;> simp [applyFs]

theorem fsFaithful_selectVT {env : Env} {element_id text : String} :
    FsFaithful (selectVisibleText env element_id text) := by
  unfold selectVisibleText
  exact fsFaithful_seq fsFaithful_wait (fun _ => fsFaithful_runEmit rfl rfl)

theorem fsFaithful_typeI {env : Env} {element_id text : String} :
    FsFaithful (typeInto env element_id text) := by
  unfold typeInto
  exact fsFaithful_seq fsFaithful_wait (fun _ => fsFaithful_runEmit rfl rfl)

theorem fsFaithful_clickO {env : Env} {element_id : String} :
    FsFaithful (clickOn env element_id) := by
  unfold clickOn
  exact fsFaithful_seq fsFaithful_wait (fun _ => fsFaithful_runEmit rfl rfl)

theorem fsFaithful_create {env : Env} {config : Config} :
    FsFaithful (create_parking_permit env config) := by
  unfold create_parking_permit
  exact fsFaithful_seq fsFaithful_selectVT fun _ =>
    fsFaithful_seq fsFaithful_typeI fun _ =>
    fsFaithful_seq fsFaithful_clickO fun _ =>
    fsFaithful_seq fsFaithful_typeI fun _ =>
    fsFaithful_seq fsFaithful_typeI fun _ =>
    fsFaithful_seq fsFaithful_typeI fun _ =>
    fsFaithful_seq fsFaithful_typeI fun _ =>
    fsFaithful_seq fsFaithful_clickO fun _ =>
    fsFaithful_seq fsFaithful_clickO fun _ =>
    fsFaithful_seq fsFaithful_typeI fun _ =>
    fsFaithful_seq fsFaithful_clickO fun _ =>
    fsFaithful_clickO

theorem fsFaithful_getExp {env : Env} :
    FsFaithful (get_parking_permit_expiration_date env) := by
  unfold get_parking_permit_expiration_date
  refine fsFaithful_seq fsFaithful_wait fun _ => ?_
  intro fs
  cases h : strptime_expiration env.expirationText <;> simp [h, applyFs]

theorem fsFaithful_saveShot {env : Env} {path : String} :
    FsFaithful (save_screenshot_of_permit env path) := by
  unfold save_screenshot_of_permit
  refine fsFaithful_seq fsFaithful_wait fun _ => ?_
  intro fs
  show true = applyFs fs [Event.capture path]
  simp [applyFs]

theorem fsFaithful_deleteShot {path : String} :
    FsFaithful (delete_screenshot_of_permit path) := by
  intro fs
  unfold delete_screenshot_of_permit
  split <;> simp [applyFs]

theorem fsFaithful_discordD {env : Env} {path : String} :
    FsFaithful (discord_dispatch env path) := by
  intro fs
  unfold discord_dispatch
  cases env.notifOutcome <;> simp [applyFs]

theorem fsFaithful_sendShot {env : Env} {path : String} {config : Config} :
    FsFaithful (send_screenshot_in_discord env path config) := by
  unfold send_screenshot_in_discord
  refine fsFaithful_seq (fsFaithful_ite fsFaithful_saveShot (fsFaithful_runEmit rfl rfl))
    fun _ => fsFaithful_seq fsFaithful_discordD
    fun _ => fsFaithful_ite fsFaithful_deleteShot (fsFaithful_runPure ())

theorem fsFaithful_sched {env : Env} {pp : String} {exp : DateTime} {args : Args} :
    FsFaithful (schedule_program_to_renew_permit env pp exp args) := by
  intro fs
  unfold schedule_program_to_renew_permit
  split <;> simp [applyFs]

theorem fsFaithful_body {env : Env} {config : Config} :
    FsFaithful (sessionBody env config) := by
  unfold sessionBody
  exact fsFaithful_seq (fsFaithful_runEmit rfl rfl) fun _ =>
    fsFaithful_seq fsFaithful_create fun _ =>
    fsFaithful_seq fsFaithful_getExp fun exp =>
    fsFaithful_seq (fsFaithful_ite fsFaithful_saveShot (fsFaithful_runPure ())) fun _ =>
    fsFaithful_seq (fsFaithful_ite fsFaithful_sendShot (fsFaithful_runPure ())) fun _ =>
    fsFaithful_runPure exp

theorem never_body {p : Event → Bool} {env : Env} {config : Config}
    (hnav : ∀ s, p (Event.navigate s) = false)
    (hw : ∀ s, p (Event.waitVisible s) = false)
    (hc : ∀ s, p (Event.click s) = false)
    (ht : ∀ s t, p (Event.typeText s t) = false)
    (hsel : ∀ s t, p (Event.selectOption s t) = false)
    (hcap : p (Event.capture (generate_screenshot_file_path config.screenshot_folder env.captureTime)) = false)
    (hclw : p Event.closeWindow = false)
    (hst : p Event.discordStart = false)
    (hsd : p (Event.discordSend (generate_screenshot_file_path config.screenshot_folder env.captureTime)) = false)
    (hlo : p Event.discordLogoff = false)
    (hrem : p (Event.removeFile (generate_screenshot_file_path config.screenshot_folder env.captureTime)) = false)
    (hlog : ∀ s, p (Event.logErrorMsg s) = false) :
    NeverEmits p (sessionBody env config) := by
  unfold sessionBody
  exact never_seq (never_runEmit (hnav _)) fun _ =>
    never_seq (never_create hw hc ht hsel) fun _ =>
    never_seq (never_getExp hw) fun exp =>
    never_seq (never_ite (never_saveShot hw hcap) (never_runPure ())) fun _ =>
    never_seq
      (never_ite (never_sendShot hw hcap hclw hst hsd hlo hrem hlog)
        (never_runPure ())) fun _ =>
    never_runPure exp

theorem main_countP_zero (p : Event → Bool) (env : Env) (config : Config)
    (pp : String) (args : Args)
    (hbody : NeverEmits p (sessionBody env config))
    (hsched : ∀ exp, NeverEmits p (schedule_program_to_renew_permit env pp exp args))
    (hopen : p Event.openSession = false)
    (hquit : p Event.quitSession = false) :
    (main env config pp args).1.countP p = 0 := by
  unfold main
  rcases hb : sessionBody env config false with ⟨tr, fs1, r⟩
  have h1 : tr.countP p = 0 := by
    have h0 := hbody false
    rw [hb] at h0
    exact h0
  cases r with
  | ok exp =>
    dsimp only
    split
    · rcases hs : schedule_program_to_renew_permit env pp exp args fs1 with ⟨tr2, fs2, r2⟩
      have h2 : tr2.countP p = 0 := by
        have h0 := hsched exp fs1
        rw [hs] at h0
        exact h0
      dsimp only
      simp [List.countP_cons, List.countP_append, h1, h2, hopen, hquit]
    · dsimp only
      simp [List.countP_cons, List.countP_append, h1, hopen, hquit]
  | error e =>
    dsimp only
    simp [List.countP_cons, List.countP_append, h1, hopen, hquit]

theorem main_countP_le (p : Event → Bool) (n : Nat) (env : Env) (config : Config)
    (pp : String) (args : Args)
    (hbody : EmitsLe p n (sessionBody env config))
    (hsched : ∀ exp, NeverEmits p (schedule_program_to_renew_permit env pp exp args))
    (hopen : p Event.openSession = false)
    (hquit : p Event.quitSession = false) :
    (main env config pp args).1.countP p ≤ n := by
  unfold main
  rcases hb : sessionBody env config false with ⟨tr, fs1, r⟩
  have h1 : tr.countP p ≤ n := by
    have h0 := hbody false
    rw [hb] at h0
    exact h0
  cases r with
  | ok exp =>
    dsimp only
    split
    · rcases hs : schedule_program_to_renew_permit env pp exp args fs1 with ⟨tr2, fs2, r2⟩
      have h2 : tr2.countP p = 0 := by
        have h0 := hsched exp fs1
        rw [hs] at h0
        exact h0
      dsimp only
      simp [List.countP_cons, List.countP_append, h2, hopen, hquit]
      omega
    · dsimp only
      simp [List.countP_cons, List.countP_append, hopen, hquit]
      omega
  | error e =>
    dsimp only
    simp [List.countP_cons, List.countP_append, hopen, hquit]
    omega

theorem main_quit_once (env : Env) (config : Config) (pp : String) (args : Args) :
    (main env config pp args).1.countP isQuit = 1 := by
  have hbody : NeverEmits isQuit (sessionBody env config) :=
    never_body (fun _ => rfl) (fun _ => rfl) (fun _ => rfl) (fun _ _ => rfl)
      (fun _ _ => rfl) rfl rfl rfl rfl rfl rfl (fun _ => rfl)
  have hsched : ∀ exp, NeverEmits isQuit (schedule_program_to_renew_permit env pp exp args) :=
    fun _ => never_sched (fun _ => rfl) (fun _ => rfl)
  unfold main
  rcases hb : sessionBody env config false with ⟨tr, fs1, r⟩
  have h1 : tr.countP isQuit = 0 := by
    have h0 := hbody false
    rw [hb] at h0
    exact h0
  cases r with
  | ok exp =>
    dsimp only
    split
    · rcases hs : schedule_program_to_renew_permit env pp exp args fs1 with ⟨tr2, fs2, r2⟩
      have h2 : tr2.countP isQuit = 0 := by
        have h0 := hsched exp fs1
        rw [hs] at h0
        exact h0
      dsimp only
      simp [List.countP_cons, List.countP_append, h1, h2, isQuit]
    · dsimp only
      simp [List.countP_cons, List.countP_append, h1, isQuit]
  | error e =>
    dsimp only
    simp [List.countP_cons, List.countP_append, h1, isQuit]

theorem main_fs (env : Env) (config : Config) (pp : String) (args : Args) :
    (main env config pp args).2.1 = applyFs false (main env config pp args).1 := by
  unfold main
  rcases hb : sessionBody env config false with ⟨tr, fs1, r⟩
  have h1 : fs1 = applyFs false tr := by
    have h0 := @fsFaithful_body env config false
    rw [hb] at h0
    exact h0
  cases r with
  | ok exp =>
    dsimp only
    split
    · rcases hs : schedule_program_to_renew_permit env pp exp args fs1 with ⟨tr2, fs2, r2⟩
      have h2 : fs2 = applyFs fs1 tr2 := by
        have h0 := @fsFaithful_sched env pp exp args fs1
        rw [hs] at h0
        exact h0
      dsimp only
      simp [applyFs, applyFs_append, ← h1, h2]
    · dsimp only
      simp [applyFs, applyFs_append, ← h1]
  | error e =>
    dsimp only
    simp [applyFs, applyFs_append, ← h1]

theorem never_sendShotRemSave {env : Env} {path : String} {config : Config}
    (hsv : config.save_screenshot_of_permit = true) :
    NeverEmits isRemoveFile (send_screenshot_in_discord env path config) := by
  unfold send_screenshot_in_discord
  simp only [hsv, Bool.not_true, Bool.false_eq_true, if_false]
  exact never_seq (never_runEmit rfl) fun _ =>
    never_seq (never_discordD rfl rfl rfl) fun _ =>
    never_runPure ()

theorem never_sendShotCapSave {env : Env} {path : String} {config : Config}
    (hsv : config.save_screenshot_of_permit = true) :
    NeverEmits isCapture (send_screenshot_in_discord env path config) := by
  unfold send_screenshot_in_discord
  simp only [hsv, Bool.not_true, Bool.false_eq_true, if_false]
  exact never_seq (never_runEmit rfl) fun _ =>
    never_seq (never_discordD rfl rfl rfl) fun _ =>
    never_runPure ()

theorem emitsLe_runEmit {p : Event → Bool} {e : Event} : EmitsLe p 1 (Run.emit e) := by
  intro fs
  simp only [Run.emit, List.countP_cons, List.countP_nil]
  split <;> simp

theorem emitsLe_sendShotCap {env : Env} {path : String} {config : Config} :
    EmitsLe isCapture 1 (send_screenshot_in_discord env path config) := by
  unfold send_screenshot_in_discord
  apply emitsLe_seq (n := 1) (k := 0)
  · apply emitsLe_ite
    · exact emitsLe_saveShot (fun _ => rfl)
    · exact never_toLe (never_runEmit rfl)
  · intro a
    apply emitsLe_seq (n := 0) (k := 0)
    · exact never_toLe (never_discordD rfl rfl rfl)
    · intro b
      apply never_toLe
      apply never_ite
      · exact never_deleteShot rfl (fun _ => rfl)
      · exact never_runPure ()

theorem emitsLe_sendShotClose {env : Env} {path : String} {config : Config} :
    EmitsLe isCloseWindow 1 (send_screenshot_in_discord env path config) := by
  unfold send_screenshot_in_discord
  apply emitsLe_seq (n := 1) (k := 0)
  · apply emitsLe_ite
    · exact never_toLe (never_saveShot (fun _ => rfl) rfl)
    · exact emitsLe_runEmit
  · intro a
    apply emitsLe_seq (n := 0) (k := 0)
    · exact never_toLe (never_discordD rfl rfl rfl)
    · intro b
      apply never_toLe
      apply never_ite
      · exact never_deleteShot rfl (fun _ => rfl)
      · exact never_runPure ()

theorem body_cap_le {env : Env} {config : Config} :
    EmitsLe isCapture 1 (sessionBody env config) := by
  unfold sessionBody
  cases hsv : config.save_screenshot_of_permit with
  | true =>
    apply emitsLe_seq (n := 0) (k := 1)
    · exact never_toLe (never_runEmit rfl)
    intro a
    apply emitsLe_seq (n := 0) (k := 1)
    · exact never_toLe (never_create (fun _ => rfl) (fun _ => rfl)
        (fun _ _ => rfl) (fun _ _ => rfl))
    intro b
    apply emitsLe_seq (n := 0) (k := 1)
    · exact never_toLe (never_getExp (fun _ => rfl))
    intro exp
    apply emitsLe_seq (n := 1) (k := 0)
    · apply emitsLe_ite
      · exact emitsLe_saveShot (fun _ => rfl)
      · exact never_toLe (never_runPure ())
    intro c
    apply emitsLe_seq (n := 0) (k := 0)
    · apply never_toLe
      apply never_ite
      · exact never_sendShotCapSave hsv
      · exact never_runPure ()
    intro d
    exact never_toLe (never_runPure exp)
  | false =>
    simp only [hsv, Bool.false_eq_true, if_false]
    apply emitsLe_seq (n := 0) (k := 1)
    · exact never_toLe (never_runEmit rfl)
    intro a
    apply emitsLe_seq (n := 0) (k := 1)
    · exact never_toLe (never_create (fun _ => rfl) (fun _ => rfl)
        (fun _ _ => rfl) (fun _ _ => rfl))
    intro b
    apply emitsLe_seq (n := 0) (k := 1)
    · exact never_toLe (never_getExp (fun _ => rfl))
    intro exp
    apply emitsLe_seq (n := 0) (k := 1)
    · exact never_toLe (never_runPure ())
    intro c
    apply emitsLe_seq (n := 1) (k := 0)
    · apply emitsLe_ite
      · exact emitsLe_sendShotCap
      · exact never_toLe (never_runPure ())
    intro d
    exact never_toLe (never_runPure exp)

theorem body_close_le {env : Env} {config : Config} :
    EmitsLe isCloseWindow 1 (sessionBody env config) := by
  unfold sessionBody
  apply emitsLe_seq (n := 0) (k := 1)
  · exact never_toLe (never_runEmit rfl)
  intro a
  apply emitsLe_seq (n := 0) (k := 1)
  · exact never_toLe (never_create (fun _ => rfl) (fun _ => rfl)
      (fun _ _ => rfl) (fun _ _ => rfl))
  intro b
  apply emitsLe_seq (n := 0) (k := 1)
  · exact never_toLe (never_getExp (fun _ => rfl))
  intro exp
  apply emitsLe_seq (n := 0) (k := 1)
  · apply never_toLe
    apply never_ite
    · exact never_saveShot (fun _ => rfl) rfl
    · exact never_runPure ()
  intro c
  apply emitsLe_seq (n := 1) (k := 0)
  · apply emitsLe_ite
    · exact emitsLe_sendShotClose
    · exact never_toLe (never_runPure ())
  intro d
  exact never_toLe (never_runPure exp)

theorem body_rem_save {env : Env} {config : Config}
    (hsv : config.save_screenshot_of_permit = true) :
    NeverEmits isRemoveFile (sessionBody env config) := by
  unfold sessionBody
  apply never_seq (never_runEmit rfl)
  intro a
  apply never_seq (never_create (fun _ => rfl) (fun _ => rfl)
    (fun _ _ => rfl) (fun _ _ => rfl))
  intro b
  apply never_seq (never_getExp (fun _ => rfl))
  intro exp
  apply never_seq (never_ite
    (never_saveShot (fun _ => rfl) rfl) (never_runPure ()))
  intro c
  apply never_seq (never_ite (never_sendShotRemSave hsv)
    (never_runPure ()))
  intro d
  exact never_runPure exp

/-- Baseline configuration for concrete runs. -/
def cfgBase : Config :=
  { timeout := 10
    property_location := "The Falls"
    apartment_number_str := "101"
    plate_number := "ABC1234"
    vehicle_make := "Honda"
    vehicle_model := "Civic"
    vehicle_color := "Blue"
    screenshot_folder := "C:\\screenshots"
    save_screenshot_of_permit := true
    send_screenshot_in_discord := true
    discord_bot_token := "token"
    discord_channel_id := 123
    automatically_renew_permit := true }

/-- Baseline environment for concrete runs: every element becomes
visible in time, the portal shows a well-formed expiration one day after
the current wall clock, and the Discord dispatch succeeds. -/
def envBase : Env :=
  { ready := fun _ => true
    expirationText := "2/22/2024 6:52:05 PM"
    notifOutcome := NotifOutcome.ok
    captureTime := ⟨2024, 2, 21, 18, 52, 10⟩
    now := ⟨2024, 2, 21, 18, 52, 30⟩ }

/-- Default command-line arguments. -/
def argsBase : Args := { config := "config.yaml", verbose := false }

/-- C5: parsing the portal text "2/22/2024 6:52:05 PM" with the fixed
month/day/year 12-hour-clock pattern yields February 22 2024, 18:52:05,
and a non-matching text such as "2024-02-22" raises
`ExpirationParseError` (the parse returns no timestamp and
`get_parking_permit_expiration_date` propagates the error). -/
theorem claim_C5_parse_fixed_pattern :
    strptime_expiration "2/22/2024 6:52:05 PM" = some ⟨2024, 2, 22, 18, 52, 5⟩ ∧
    strptime_expiration "2024-02-22" = none ∧
    (get_parking_permit_expiration_date
        { envBase with expirationText := "2/22/2024 6:52:05 PM" } false).2.2 =
      Except.ok ⟨2024, 2, 22, 18, 52, 5⟩ ∧
    (get_parking_permit_expiration_date
        { envBase with expirationText := "2024-02-22" } false).2.2 =
      Except.error (Err.expirationParse "2024-02-22") := by
  refine ⟨by decide, by decide, rfl, rfl⟩

/-- C9: deleting the screenshot when the file is missing logs an error
(naming the path) instead of silently ignoring the situation, attempts
no removal, and returns normally rather than aborting the run. -/
theorem claim_C9_delete_missing (path : String) :
    delete_screenshot_of_permit path false =
      ([Event.logErrorMsg ("Could not find and delete " ++ path ++ ".")],
        false, Except.ok ()) := by
  rfl

/-- C4: when the extracted expiration is not strictly after the current
time, the scheduler logs the invariant violation and exits with status 1
without issuing any registration command, and a registration command is
issued only when the expiration is strictly in the future. -/
theorem claim_C4_expired_fatal (env : Env) (pp : String) (exp : DateTime)
    (args : Args) (fs : Bool) :
    (DateTime.ltb env.now exp = false →
      schedule_program_to_renew_permit env pp exp args fs =
        ([Event.logErrorMsg "An unknown error has occurred where the parking permit has already expired."],
          fs, Except.error (Err.systemExit 1))) ∧
    (1 ≤ (schedule_program_to_renew_permit env pp exp args fs).1.countP isRegisterTask →
      DateTime.ltb env.now exp = true) := by
  unfold schedule_program_to_renew_permit
  cases h : DateTime.ltb env.now exp <;>
    simp [h, isRegisterTask, List.countP_cons, List.countP_nil]

/-- C4 witness: a permit expiring before the current time makes the
scheduler fail fatally with no registration, and a registration implies
a future expiration. -/
theorem claim_C4_expired_fatal_witness :
    schedule_program_to_renew_permit
        { envBase with now := ⟨2024, 2, 23, 0, 0, 0⟩ } "C:\\prog.py"
        ⟨2024, 2, 22, 18, 52, 5⟩ argsBase false =
      ([Event.logErrorMsg "An unknown error has occurred where the parking permit has already expired."],
        false, Except.error (Err.systemExit 1)) :=
  (claim_C4_expired_fatal { envBase with now := ⟨2024, 2, 23, 0, 0, 0⟩ }
    "C:\\prog.py" ⟨2024, 2, 22, 18, 52, 5⟩ argsBase false).1 (by decide)

theorem beq_and_bne_false (a b : String) :
    ((a == b) && (a != b)) = false := by
  cases h : a == b <;> simp [bne, h]

/-- Registering a task with force leaves exactly one task of its name in
the external scheduler: any previous task of that name is replaced. -/
theorem tasksNamed_create (tasks : List TaskDescriptor) (d : TaskDescriptor) :
    tasksNamed (schtasksCreate tasks d) d.taskName = [d] := by
  unfold tasksNamed schtasksCreate
  rw [List.filter_append, List.filter_filter]
  have h1 : (tasks.filter fun t => (t.taskName == d.taskName) && (t.taskName != d.taskName)) = [] := by
    apply List.filter_eq_nil_iff.mpr
    intro a _
    simp [beq_and_bne_false]
  simp [h1]

/-- C3 counterexample: scheduling a renewal for the expiration
2/22/2024 6:52:05 PM (strictly in the future) issues one registration
whose trigger is 02/22/2024 18:52 — the `schtasks /st` field has minute
resolution, so the trigger does not fire at the expiration instant
(seconds 5 are dropped), contradicting the claim that the trigger date
and time match the expiration instant. -/
theorem claim_C3_counterexample :
    (schedule_program_to_renew_permit { envBase with now := ⟨2024, 2, 22, 17, 52, 5⟩ }
        "C:\\prog.py" ⟨2024, 2, 22, 18, 52, 5⟩ argsBase false).1 =
      [Event.registerTask
        { taskName := "AutomaticParkingPermitRenewal"
          command := "\"python C:\\\\prog.py \""
          schedule := "once"
          startDate := "02/22/2024"
          startTime := "18:52"
          runLevel := "HIGHEST"
          force := true }] ∧
    trigger_fires_at
        { taskName := "AutomaticParkingPermitRenewal"
          command := "\"python C:\\\\prog.py \""
          schedule := "once"
          startDate := "02/22/2024"
          startTime := "18:52"
          runLevel := "HIGHEST"
          force := true }
        ⟨2024, 2, 22, 18, 52, 5⟩ = false := by
  refine ⟨by decide, by decide⟩

/-- C3 (amended): for every expiration strictly in the future, the
scheduler issues exactly one registration command, for a one-shot task
named `AutomaticParkingPermitRenewal` with `HIGHEST` run level and force
(overwrite) semantics, whose trigger fires at the expiration instant
truncated to whole minutes; registering it leaves the external scheduler
with exactly one task of that name, so a second call with a different
future expiration replaces the task rather than duplicating it. -/
theorem claim_C3_schedule_idempotent (env : Env) (pp : String) (exp : DateTime)
    (args : Args) (fs : Bool) (h : DateTime.ltb env.now exp = true) :
    ∃ d : TaskDescriptor,
      schedule_program_to_renew_permit env pp exp args fs =
        ([Event.registerTask d], fs, Except.ok ()) ∧
      d.taskName = "AutomaticParkingPermitRenewal" ∧
      d.schedule = "once" ∧
      d.runLevel = "HIGHEST" ∧
      d.force = true ∧
      trigger_fires_at d exp.truncMin = true ∧
      (∀ tasks, tasksNamed (schtasksCreate tasks d) "AutomaticParkingPermitRenewal" = [d]) := by
  refine ⟨{ taskName := "AutomaticParkingPermitRenewal"
            command := "\"python " ++ escapeBackslashes pp ++ " " ++
              generate_command_line_arguments_as_str args ++ "\""
            schedule := "once"
            startDate := fmtDate exp
            startTime := fmtHM exp
            runLevel := "HIGHEST"
            force := true }, ?_, rfl, rfl, rfl, rfl, ?_, ?_⟩
  · unfold schedule_program_to_renew_permit
    rw [if_pos h]
  · simp [trigger_fires_at, DateTime.truncMin, fmtDate, fmtHM]
  · intro tasks
    exact tasksNamed_create tasks _

/-- C3 witness: a concrete future expiration is scheduled as one
replacing registration with the truncated-to-minute trigger. -/
theorem claim_C3_schedule_idempotent_witness :
    ∃ d : TaskDescriptor,
      schedule_program_to_renew_permit { envBase with now := ⟨2024, 2, 22, 17, 52, 5⟩ }
          "C:\\prog.py" ⟨2024, 2, 22, 18, 52, 5⟩ argsBase false =
        ([Event.registerTask d], false, Except.ok ()) ∧
      d.taskName = "AutomaticParkingPermitRenewal" ∧
      d.schedule = "once" ∧
      d.runLevel = "HIGHEST" ∧
      d.force = true ∧
      trigger_fires_at d (DateTime.truncMin ⟨2024, 2, 22, 18, 52, 5⟩) = true ∧
      (∀ tasks, tasksNamed (schtasksCreate tasks d) "AutomaticParkingPermitRenewal" = [d]) :=
  claim_C3_schedule_idempotent { envBase with now := ⟨2024, 2, 22, 17, 52, 5⟩ }
    "C:\\prog.py" ⟨2024, 2, 22, 18, 52, 5⟩ argsBase false (by decide)

/-- Fixed interaction sequence of the three-page wizard, as a function
of the configuration only: property selection, apartment entry and
advance, plate/make/model/color entry and two advances, review plate
re-entry, confirmation check, submit. -/
def wizardTrace (config : Config) : List Event :=
  [Event.waitVisible "MainContent_ddl_Property",
   Event.selectOption "MainContent_ddl_Property" config.property_location,
   Event.waitVisible "MainContent_txt_Apartment",
   Event.typeText "MainContent_txt_Apartment" config.apartment_number_str,
   Event.waitVisible "MainContent_btn_PropertyNext",
   Event.click "MainContent_btn_PropertyNext",
   Event.waitVisible "MainContent_txt_Plate",
   Event.typeText "MainContent_txt_Plate" config.plate_number,
   Event.waitVisible "MainContent_txt_Make",
   Event.typeText "MainContent_txt_Make" config.vehicle_make,
   Event.waitVisible "MainContent_txt_Model",
   Event.typeText "MainContent_txt_Model" config.vehicle_model,
   Event.waitVisible "MainContent_txt_Color",
   Event.typeText "MainContent_txt_Color" config.vehicle_color,
   Event.waitVisible "MainContent_btn_Vehicle_Next",
   Event.click "MainContent_btn_Vehicle_Next",
   Event.waitVisible "MainContent_btn_Auth_Next",
   Event.click "MainContent_btn_Auth_Next",
   Event.waitVisible "MainContent_txt_Review_PlateNumber",
   Event.typeText "MainContent_txt_Review_PlateNumber" config.plate_number,
   Event.waitVisible "MainContent_cb_Confirm",
   Event.click "MainContent_cb_Confirm",
   Event.waitVisible "MainContent_btn_Submit",
   Event.click "MainContent_btn_Submit"]

theorem create_submit_le (env : Env) (config : Config) :
    EmitsLe isSubmitClick 1 (create_parking_permit env config) := by
  unfold create_parking_permit
  apply emitsLe_seq (n := 0) (k := 1)
  · exact never_toLe (never_selectVT rfl rfl)
  intro a
  apply emitsLe_seq (n := 0) (k := 1)
  · exact never_toLe (never_typeI rfl rfl)
  intro a
  apply emitsLe_seq (n := 0) (k := 1)
  · exact never_toLe (never_clickO rfl (by decide))
  intro a
  apply emitsLe_seq (n := 0) (k := 1)
  · exact never_toLe (never_typeI rfl rfl)
  intro a
  apply emitsLe_seq (n := 0) (k := 1)
  · exact never_toLe (never_typeI rfl rfl)
  intro a
  apply emitsLe_seq (n := 0) (k := 1)
  · exact never_toLe (never_typeI rfl rfl)
  intro a
  apply emitsLe_seq (n := 0) (k := 1)
  · exact never_toLe (never_typeI rfl rfl)
  intro a
  apply emitsLe_seq (n := 0) (k := 1)
  · exact never_toLe (never_clickO rfl (by decide))
  intro a
  apply emitsLe_seq (n := 0) (k := 1)
  · exact never_toLe (never_clickO rfl (by decide))
  intro a
  apply emitsLe_seq (n := 0) (k := 1)
  · exact never_toLe (never_typeI rfl rfl)
  intro a
  apply emitsLe_seq (n := 0) (k := 1)
  · exact never_toLe (never_clickO rfl (by decide))
  intro a
  exact emitsLe_clickO rfl

/-- C7: for every configuration, when the portal serves every element in
time the form driver performs exactly the fixed wizard sequence (no
branching, no skipped steps), completes normally, and clicks the final
submit button exactly once; and on every run, whatever elements fail to
appear, the submit button is clicked at most once. -/
theorem claim_C7_wizard_fixed_order (env : Env) (config : Config) (fs : Bool)
    (hready : ∀ s, env.ready s = true) :
    (create_parking_permit env config fs).1 = wizardTrace config ∧
    (create_parking_permit env config fs).2.2 = Except.ok () ∧
    (create_parking_permit env config fs).1.countP isSubmitClick = 1 ∧
    (∀ env2 fs2, (create_parking_permit env2 config fs2).1.countP isSubmitClick ≤ 1) := by
  have htr : (create_parking_permit env config fs).1 = wizardTrace config ∧
      (create_parking_permit env config fs).2.2 = Except.ok () := by
    constructor <;>
      simp [create_parking_permit, selectVisibleText, typeInto, clickOn,
        wait_for_element, Run.seq, Run.emit, hready, wizardTrace]
  refine ⟨htr.1, htr.2, ?_, fun env2 fs2 => create_submit_le env2 config fs2⟩
  rw [htr.1]
  simp [wizardTrace, isSubmitClick, List.countP_cons, List.countP_nil]

/-- C7 witness: a concrete all-elements-ready run performs the fixed
sequence and submits exactly once. -/
theorem claim_C7_wizard_fixed_order_witness :
    (create_parking_permit envBase cfgBase false).1 = wizardTrace cfgBase ∧
    (create_parking_permit envBase cfgBase false).1.countP isSubmitClick = 1 :=
  ⟨(claim_C7_wizard_fixed_order envBase cfgBase false (fun _ => rfl)).1,
   (claim_C7_wizard_fixed_order envBase cfgBase false (fun _ => rfl)).2.2.1⟩

/-- C6: on every run (any element readiness, any Discord outcome, any
flag combination, success or failure), the session quit performed by the
`with` statement occurs exactly once in the trace, the only other
session-affecting operation — the `driver.close()` window close inside
the dispatch step — occurs at most once, and the session was opened.
The `with webdriver.Firefox()` exit calls `quit()`, which destroys the
session; `driver.close()` at the start of the retained-artifact dispatch
branch closes the browser window without destroying the session, so no
path quits the session twice. -/
theorem claim_C6_session_released_once (env : Env) (config : Config)
    (pp : String) (args : Args) :
    (main env config pp args).1.countP isQuit = 1 ∧
    (main env config pp args).1.countP isCloseWindow ≤ 1 ∧
    Event.openSession ∈ (main env config pp args).1 := by
  refine ⟨main_quit_once env config pp args, ?_, ?_⟩
  · exact main_countP_le isCloseWindow 1 env config pp args body_close_le
      (fun exp => never_sched (fun _ => rfl) (fun _ => rfl)) rfl rfl
  · unfold main
    rcases hb : sessionBody env config false with ⟨tr, fs1, r⟩
    cases r with
    | ok exp =>
      dsimp only
      split
      · rcases hs : schedule_program_to_renew_permit env pp exp args fs1 with ⟨tr2, fs2, r2⟩
        dsimp only
        exact List.mem_cons_self _ _
      · exact List.mem_cons_self _ _
    | error e =>
      exact List.mem_cons_self _ _

/-- C8: when `save_screenshot_of_permit` is true, no operation of the
run removes any file — in particular the notification dispatch path
deletes nothing — so whenever the screenshot was captured during the
run, the artifact file still exists when the run completes (on success
and on every failure path alike). -/
theorem claim_C8_saved_artifact_persists (env : Env) (config : Config)
    (pp : String) (args : Args)
    (hsv : config.save_screenshot_of_permit = true) :
    (main env config pp args).1.countP isRemoveFile = 0 ∧
    (1 ≤ (main env config pp args).1.countP isCapture →
      (main env config pp args).2.1 = true) := by
  have hrem : (main env config pp args).1.countP isRemoveFile = 0 :=
    main_countP_zero isRemoveFile env config pp args (body_rem_save hsv)
      (fun exp => never_sched (fun _ => rfl) (fun _ => rfl)) rfl rfl
  refine ⟨hrem, fun hcap => ?_⟩
  rw [main_fs]
  apply applyFs_eq_true_of_capture
  · intro e he
    have := List.countP_eq_zero.mp hrem e he
    simpa using this
  · exact List.countP_pos_iff.mp hcap

/-- C8 witness: a concrete all-features-on run with the save flag set
captures the screenshot, removes nothing, and ends with the file on
disk. -/
theorem claim_C8_saved_artifact_persists_witness :
    (main envBase cfgBase "C:\\prog.py" argsBase).1.countP isRemoveFile = 0 ∧
    (main envBase cfgBase "C:\\prog.py" argsBase).2.1 = true :=
  ⟨(claim_C8_saved_artifact_persists envBase cfgBase "C:\\prog.py" argsBase rfl).1,
   (claim_C8_saved_artifact_persists envBase cfgBase "C:\\prog.py" argsBase rfl).2
     (by decide)⟩

/-- Exact behaviour of the dispatch step in the ephemeral branch (save
flag off, QR element visible): the step waits for the QR code and
captures the screenshot through the still-open session, then runs the
Discord session; only when the whole dispatch completes normally is the
file deleted afterwards — there is no `try/finally`, so on a session,
send or teardown failure the function raises before reaching the
deletion and the file stays on disk. -/
theorem sendShot_ephemeral_eq (env : Env) (path : String) (config : Config) (fs : Bool)
    (hsv : config.save_screenshot_of_permit = false)
    (hq : env.ready "MainContent_img_QRC" = true) :
    send_screenshot_in_discord env path config fs =
      (Event.waitVisible "MainContent_img_QRC" :: Event.capture path ::
        (match env.notifOutcome with
         | NotifOutcome.ok =>
           [Event.discordStart, Event.discordSend path, Event.discordLogoff,
            Event.removeFile path]
         | NotifOutcome.failSession => []
         | NotifOutcome.failSend => [Event.discordStart]
         | NotifOutcome.failTeardown => [Event.discordStart, Event.discordSend path]),
       (match env.notifOutcome with
        | NotifOutcome.ok => false
        | _ => true),
       (match env.notifOutcome with
        | NotifOutcome.ok => Except.ok ()
        | NotifOutcome.failSession => Except.error (Err.notification NotifPhase.session)
        | NotifOutcome.failSend => Except.error (Err.notification NotifPhase.send)
        | NotifOutcome.failTeardown =>
          Except.error (Err.notification NotifPhase.teardown))) := by
  cases hno : env.notifOutcome <;>
    simp [send_screenshot_in_discord, save_screenshot_of_permit, wait_for_element,
      discord_dispatch, delete_screenshot_of_permit, Run.seq, Run.emit, Run.pure,
      hsv, hq, hno]

/-- C1 counterexample: with the save flag off and sending on, a run
whose Discord session establishment fails creates the ephemeral
screenshot (one capture) and then propagates the failure; the deletion
step after the dispatch is never reached, so the file still exists on
disk after the dispatch step finishes — contradicting deletion
"regardless of send outcome". -/
theorem claim_C1_counterexample :
    (send_screenshot_in_discord { envBase with notifOutcome := NotifOutcome.failSession }
        "C:\\screenshots\\p.png" { cfgBase with save_screenshot_of_permit := false }
        false).1.countP isCapture = 1 ∧
    (send_screenshot_in_discord { envBase with notifOutcome := NotifOutcome.failSession }
        "C:\\screenshots\\p.png" { cfgBase with save_screenshot_of_permit := false }
        false).2.2 = Except.error (Err.notification NotifPhase.session) ∧
    (send_screenshot_in_discord { envBase with notifOutcome := NotifOutcome.failSession }
        "C:\\screenshots\\p.png" { cfgBase with save_screenshot_of_permit := false }
        false).2.1 = true := by
  refine ⟨by decide, rfl, by decide⟩

/-- C1 (amended): with the save flag off and the QR element visible, the
ephemeral screenshot is created and, when the Discord dispatch completes
normally, is deleted immediately after the send (the file no longer
exists after the step); when session establishment, send, or teardown
fails, the exception propagates before the deletion step, no removal is
attempted, and the file remains on disk. -/
theorem claim_C1_ephemeral_deleted_on_success (env : Env) (path : String)
    (config : Config) (fs : Bool)
    (hsv : config.save_screenshot_of_permit = false)
    (hq : env.ready "MainContent_img_QRC" = true) :
    (env.notifOutcome = NotifOutcome.ok →
      send_screenshot_in_discord env path config fs =
        ([Event.waitVisible "MainContent_img_QRC", Event.capture path,
          Event.discordStart, Event.discordSend path, Event.discordLogoff,
          Event.removeFile path], false, Except.ok ())) ∧
    (env.notifOutcome ≠ NotifOutcome.ok →
      (∃ er, (send_screenshot_in_discord env path config fs).2.2 = Except.error er) ∧
      (send_screenshot_in_discord env path config fs).2.1 = true ∧
      (send_screenshot_in_discord env path config fs).1.countP isRemoveFile = 0) := by
  constructor
  · intro hok
    rw [sendShot_ephemeral_eq env path config fs hsv hq, hok]
  · intro hne
    rw [sendShot_ephemeral_eq env path config fs hsv hq]
    cases hno : env.notifOutcome
    case ok => exact absurd hno hne
    all_goals
      exact ⟨⟨_, rfl⟩, rfl, by simp [isRemoveFile, List.countP_cons, List.countP_nil]⟩

/-- C1 witness: a concrete successful ephemeral dispatch captures,
sends, then deletes, leaving no file. -/
theorem claim_C1_ephemeral_deleted_on_success_witness :
    send_screenshot_in_discord envBase "C:\\screenshots\\p.png"
        { cfgBase with save_screenshot_of_permit := false } false =
      ([Event.waitVisible "MainContent_img_QRC",
        Event.capture "C:\\screenshots\\p.png", Event.discordStart,
        Event.discordSend "C:\\screenshots\\p.png", Event.discordLogoff,
        Event.removeFile "C:\\screenshots\\p.png"], false, Except.ok ()) :=
  (claim_C1_ephemeral_deleted_on_success envBase "C:\\screenshots\\p.png"
    { cfgBase with save_screenshot_of_permit := false } false rfl rfl).1 rfl

/-- C2 counterexample: with the save flag off (ephemeral artifact), the
dispatch step itself performs the capture through the still-open browser
session — its trace begins with the QR wait and the capture and contains
no window close at all — and when the session cannot serve the QR wait
the dispatch step fails without capturing anything.  The session is
therefore still needed for capture timing in this branch and cannot be
closed before the artifact is captured, contradicting the claim. -/
theorem claim_C2_counterexample :
    (send_screenshot_in_discord envBase "C:\\screenshots\\p.png"
        { cfgBase with save_screenshot_of_permit := false } false).1.countP
      isCloseWindow = 0 ∧
    (send_screenshot_in_discord envBase "C:\\screenshots\\p.png"
        { cfgBase with save_screenshot_of_permit := false } false).1.take 2 =
      [Event.waitVisible "MainContent_img_QRC",
       Event.capture "C:\\screenshots\\p.png"] ∧
    (send_screenshot_in_discord { envBase with ready := fun _ => false }
        "C:\\screenshots\\p.png" { cfgBase with save_screenshot_of_permit := false }
        false).2.2 = Except.error (Err.elementNotReady "MainContent_img_QRC") ∧
    (send_screenshot_in_discord { envBase with ready := fun _ => false }
        "C:\\screenshots\\p.png" { cfgBase with save_screenshot_of_permit := false }
        false).1.countP isCapture = 0 := by
  refine ⟨by decide, by decide, rfl, by decide⟩

/-- C2 (amended): in every run the browser session stays open until the
artifact is captured — no window close or session quit precedes a
capture in the with-block's trace; the branch ordering is: when
`save_screenshot_of_permit` is true the artifact was already captured by
the orchestrator, so the dispatch step first closes the browser window
(its trace starts with the close and contains no capture); when false,
the dispatch step captures the artifact itself through the open session
(its trace starts with the QR wait and the capture) and performs no
window close. -/
theorem claim_C2_close_capture_order (env : Env) (config : Config)
    (hready : ∀ s, env.ready s = true) :
    (∀ fs, sessionClosedBeforeCapture ((sessionBody env config) fs).1 = false) ∧
    (∀ path fs, config.save_screenshot_of_permit = true →
      (∃ tl, (send_screenshot_in_discord env path config fs).1 =
        Event.closeWindow :: tl) ∧
      (send_screenshot_in_discord env path config fs).1.countP isCapture = 0) ∧
    (∀ path fs, config.save_screenshot_of_permit = false →
      (send_screenshot_in_discord env path config fs).1.countP isCloseWindow = 0 ∧
      (send_screenshot_in_discord env path config fs).1.take 2 =
        [Event.waitVisible "MainContent_img_QRC", Event.capture path]) := by
  refine ⟨?_, ?_, ?_⟩
  · intro fs
    cases hp : strptime_expiration env.expirationText <;>
      cases hsv : config.save_screenshot_of_permit <;>
      cases hsd : config.send_screenshot_in_discord <;>
      cases hno : env.notifOutcome <;>
      simp [sessionBody, create_parking_permit, selectVisibleText, typeInto, clickOn,
        wait_for_element, get_parking_permit_expiration_date, save_screenshot_of_permit,
        send_screenshot_in_discord, discord_dispatch, delete_screenshot_of_permit,
        generate_screenshot_file_path, Run.seq, Run.emit, Run.pure, hready, hp, hsv,
        hsd, hno, sessionClosedBeforeCapture, isCapture, isSessionClose, isCloseWindow,
        isQuit, List.find?]
  · intro path fs hsv
    constructor
    · have hs : ∀ tl2, (discord_dispatch env path fs).1 = tl2 →
          ∃ tl, (send_screenshot_in_discord env path config fs).1 =
            Event.closeWindow :: tl :=
        fun tl2 h2 => ⟨tl2, by
          simp [send_screenshot_in_discord, Run.seq, Run.emit, Run.pure,
            delete_screenshot_of_permit, hsv, ← h2]
          rcases h3 : discord_dispatch env path fs with ⟨tr3, fs3, r3⟩
          cases r3 <;> simp⟩
      cases hno : env.notifOutcome
      case ok => exact hs [Event.discordStart, Event.discordSend path,
        Event.discordLogoff] (by simp [discord_dispatch, hno])
      case failSession => exact hs [] (by simp [discord_dispatch, hno])
      case failSend => exact hs [Event.discordStart] (by simp [discord_dispatch, hno])
      case failTeardown =>
        exact hs [Event.discordStart, Event.discordSend path]
          (by simp [discord_dispatch, hno])
    · exact never_sendShotCapSave hsv fs
  · intro path fs hsv
    rw [sendShot_ephemeral_eq env path config fs hsv (hready _)]
    cases hno : env.notifOutcome <;>
      simp [isCloseWindow, List.countP_cons, List.countP_nil]

/-- C2 witness: concrete dispatch steps for both flag values show the
retained branch closing the window first without capturing and the
ephemeral branch capturing through the open session without closing. -/
theorem claim_C2_close_capture_order_witness :
    ((∃ tl, (send_screenshot_in_discord envBase "C:\\screenshots\\p.png" cfgBase
        false).1 = Event.closeWindow :: tl) ∧
      (send_screenshot_in_discord envBase "C:\\screenshots\\p.png" cfgBase
        false).1.countP isCapture = 0) ∧
    ((send_screenshot_in_discord envBase "C:\\screenshots\\p.png"
        { cfgBase with save_screenshot_of_permit := false } false).1.countP
      isCloseWindow = 0 ∧
      (send_screenshot_in_discord envBase "C:\\screenshots\\p.png"
        { cfgBase with save_screenshot_of_permit := false } false).1.take 2 =
      [Event.waitVisible "MainContent_img_QRC",
       Event.capture "C:\\screenshots\\p.png"]) :=
  ⟨(claim_C2_close_capture_order envBase cfgBase (fun _ => rfl)).2.1
      "C:\\screenshots\\p.png" false rfl,
   (claim_C2_close_capture_order envBase
      { cfgBase with save_screenshot_of_permit := false } (fun _ => rfl)).2.2
      "C:\\screenshots\\p.png" false rfl⟩

/-- C10: in every run the screenshot is captured at most once, and every
capture writes to the single path generated by the orchestrator; when
the save flag is on, the dispatch step performs no capture of its own
(it reuses the already-captured file, closing the window instead), and
when the save flag is off the single capture happens inside the dispatch
step — no flag combination produces two captures or a second artifact
path. -/
theorem claim_C10_single_capture (env : Env) (config : Config) (pp : String)
    (args : Args) :
    (main env config pp args).1.countP isCapture ≤ 1 ∧
    (main env config pp args).1.countP
      (isCaptureOffPath
        (generate_screenshot_file_path config.screenshot_folder env.captureTime)) = 0 ∧
    (∀ path fs, config.save_screenshot_of_permit = true →
      (send_screenshot_in_discord env path config fs).1.countP isCapture = 0) ∧
    (∀ path fs, config.save_screenshot_of_permit = false →
      env.ready "MainContent_img_QRC" = true →
      (send_screenshot_in_discord env path config fs).1.countP isCapture = 1) := by
  refine ⟨?_, ?_, ?_, ?_⟩
  · exact main_countP_le isCapture 1 env config pp args body_cap_le
      (fun exp => never_sched (fun _ => rfl) (fun _ => rfl)) rfl rfl
  · exact main_countP_zero _ env config pp args
      (never_body (fun _ => rfl) (fun _ => rfl) (fun _ => rfl) (fun _ _ => rfl)
        (fun _ _ => rfl) (by simp [isCaptureOffPath]) rfl rfl rfl rfl rfl (fun _ => rfl))
      (fun exp => never_sched (fun _ => rfl) (fun _ => rfl)) rfl rfl
  · intro path fs hsv
    exact never_sendShotCapSave hsv fs
  · intro path fs hsv hq
    rw [sendShot_ephemeral_eq env path config fs hsv hq]
    cases hno : env.notifOutcome <;>
      simp [isCapture, List.countP_cons, List.countP_nil]

/-- C10 witness: concrete dispatch steps capture zero times when the
save flag is on and exactly once when it is off. -/
theorem claim_C10_single_capture_witness :
    (send_screenshot_in_discord envBase "C:\\screenshots\\p.png" cfgBase
      false).1.countP isCapture = 0 ∧
    (send_screenshot_in_discord envBase "C:\\screenshots\\p.png"
      { cfgBase with save_screenshot_of_permit := false } false).1.countP
      isCapture = 1 :=
  ⟨(claim_C10_single_capture envBase cfgBase "C:\\prog.py" argsBase).2.2.1
      "C:\\screenshots\\p.png" false rfl,
   (claim_C10_single_capture envBase { cfgBase with save_screenshot_of_permit := false }
      "C:\\prog.py" argsBase).2.2.2 "C:\\screenshots\\p.png" false rfl rfl⟩

end ARPM
